import Mathlib

/-!
Verification development for the layered UTXO coin cache and the headers
pre-sync state machine of this repository.

The coin cache operations (AccessCoin, SpendCoin, AddCoin, BatchWrite) are
embedded per outpoint: every operation of the C++ code acts on the map entry
of a single outpoint, consulting at most the parent view entry for the same
outpoint, so a shallow per-entry embedding is faithful. The implementation
file coins.cpp is not part of this corpus; the operations below are modelled
from the specification and are proved (further down) to reproduce every row
of the behaviour tables in the coins test suite that is part of the corpus
(ccoins_access, ccoins_spend, ccoins_add, ccoins_write).
-/

/-- A coin: either spent or unspent with a signed amount. Two spent coins
compare equal, mirroring the equality used by the code and its tests, where
a spent coin carries no data. The height, coinbase flag and script do not
influence the cache flag logic and are omitted from the per-entry model. -/
inductive Coin where
  | spent
  | unspent (value : Int)
deriving DecidableEq

/-- Whether a coin is spent, mirroring Coin::IsSpent. -/
def Coin.isSpent : Coin → Bool
  | .spent => true
  | .unspent _ => false

/-- A cache entry: a coin plus the DIRTY and FRESH flags, mirroring
CCoinsCacheEntry. -/
structure CCoinsCacheEntry where
  coin : Coin
  dirty : Bool
  fresh : Bool
deriving DecidableEq

/-- The two contract violations the cache reports by throwing
std::logic_error: BatchWrite finding a FRESH child over an unspent parent
entry, and AddCoin overwriting an unspent entry without permission. -/
inductive CoinsLogicError where
  | freshMisapplied
  | overwriteUnspent
deriving DecidableEq

/-- Modelled from the spec: resolution of an outpoint in one cache layer,
mirroring CCoinsViewCache::FetchCoin (coins.cpp is absent from the corpus).
The layer consults its own entry first; on a miss it consults the parent
lookup result. The parent lookup (GetCoin) yields the value of an unspent
coin, and nothing when the parent resolves the outpoint to absent or spent.
A coin fetched from the parent is cached with CLEAN flags. -/
def FetchCoin (entry : Option CCoinsCacheEntry) (parentCoin : Option Int) :
    Option CCoinsCacheEntry :=
  match entry with
  | some e => some e
  | none => parentCoin.map fun v => ⟨Coin.unspent v, false, false⟩

/-- Modelled from the spec: CCoinsViewCache::AccessCoin per outpoint
(coins.cpp is absent from the corpus; the behaviour is pinned by the
ccoins_access table of the test suite, see the conformance theorem below).
Returns the updated layer entry for the outpoint together with the coin the
caller observes. On a double miss nothing is inserted and a spent coin is
returned. -/
def AccessCoin (entry : Option CCoinsCacheEntry) (parentCoin : Option Int) :
    Option CCoinsCacheEntry × Coin :=
  match FetchCoin entry parentCoin with
  | some e => (some e, e.coin)
  | none => (none, Coin.spent)

/-- Modelled from the spec: CCoinsViewCache::SpendCoin per outpoint
(coins.cpp is absent from the corpus; the map effect is pinned by the
ccoins_spend table of the test suite, see the conformance theorem below).
The entry is resolved, consulting the parent if needed. A resolved FRESH
entry is removed from the layer entirely; otherwise the entry becomes spent
with DIRTY set and FRESH cleared. The call reports whether an unspent entry
was found. -/
def SpendCoin (entry : Option CCoinsCacheEntry) (parentCoin : Option Int) :
    Option CCoinsCacheEntry × Bool :=
  match FetchCoin entry parentCoin with
  | none => (none, false)
  | some e =>
    let wasUnspent := !e.coin.isSpent
    if e.fresh then (none, wasUnspent)
    else (some ⟨Coin.spent, true, false⟩, wasUnspent)

/-- Modelled from the spec: CCoinsViewCache::AddCoin per outpoint
(coins.cpp is absent from the corpus; the behaviour is pinned by the
ccoins_add table of the test suite, see the conformance theorem below).
Overwriting an unspent entry without possible_overwrite is a contract
violation. Otherwise the new unspent coin is stored with DIRTY set; the
FRESH flag of a previous entry is preserved, and a new FRESH flag is gained
exactly when possible_overwrite is false and the previous entry (if any)
was not DIRTY. -/
def AddCoin (entry : Option CCoinsCacheEntry) (value : Int)
    (possible_overwrite : Bool) :
    Except CoinsLogicError (Option CCoinsCacheEntry) :=
  match entry with
  | none => .ok (some ⟨Coin.unspent value, true, !possible_overwrite⟩)
  | some e =>
    if !possible_overwrite && !e.coin.isSpent then
      .error CoinsLogicError.overwriteUnspent
    else
      .ok (some ⟨Coin.unspent value, true,
                 e.fresh || (!possible_overwrite && !e.dirty)⟩)

/-- Modelled from the spec: the per-entry merge performed by
CCoinsViewCache::BatchWrite when a child layer is flushed into its parent
(coins.cpp is absent from the corpus; the behaviour is pinned by the
ccoins_write table of the test suite, see the conformance theorem below).
Non-DIRTY child entries never change the parent. A DIRTY+FRESH spent child
over an absent parent entry collapses to absence. A DIRTY FRESH child over
an unspent parent entry is a contract violation. A spent child over a FRESH
parent entry erases the parent entry. Otherwise the child coin replaces the
parent coin, DIRTY is set, and the parent FRESH flag is preserved. -/
def BatchWriteCoin (parent : Option CCoinsCacheEntry)
    (child : Option CCoinsCacheEntry) :
    Except CoinsLogicError (Option CCoinsCacheEntry) :=
  match child with
  | none => .ok parent
  | some c =>
    if !c.dirty then .ok parent
    else
      match parent with
      | none =>
        if c.fresh && c.coin.isSpent then .ok none
        else .ok (some ⟨c.coin, true, c.fresh⟩)
      | some p =>
        if c.fresh && !p.coin.isSpent then
          .error CoinsLogicError.freshMisapplied
        else if p.fresh && c.coin.isSpent then .ok none
        else .ok (some ⟨c.coin, true, p.fresh⟩)

/-- Modelled from the spec: the per-entry effect of a layer flush on the
persistent backend. The backend receives the DIRTY entries; it represents a
spent coin as absence (the coins database erases spent entries on write).
Non-DIRTY entries are not written. -/
def backendWriteCoin (backend : Option Int)
    (child : Option CCoinsCacheEntry) : Option Int :=
  match child with
  | some c =>
    if c.dirty then
      match c.coin with
      | Coin.spent => none
      | Coin.unspent v => some v
    else backend
  | none => backend

/-- Whether the backend reports having an unspent coin for the outpoint,
mirroring HaveCoin on the bottom view. -/
def backendHasCoin (backend : Option Int) : Bool := backend.isSome

/-- Modelled from the spec: the per-entry effect of Sync on the layer own
map. Entries are retained with flags cleared; a spent entry is erased
during the flush traversal (a spent coin is not worth caching), matching
the flush behaviour test in the corpus. An absent entry stays absent. -/
def syncRetainCoin (entry : Option CCoinsCacheEntry) :
    Option CCoinsCacheEntry :=
  match entry with
  | some c => if c.coin.isSpent then none else some ⟨c.coin, false, false⟩
  | none => none

/-- The add, spend, sync scenario of the flush behaviour test, per outpoint:
starting from a layer and a backend that have never seen the outpoint, add
an unspent coin to the layer, spend it in the same layer, then sync the
layer into the backend. Returns the final layer entry and backend content,
or nothing if the add step reports a contract violation. -/
def AddSpendSyncScenario (value : Int) :
    Option (Option CCoinsCacheEntry × Option Int) :=
  match AddCoin none value false with
  | .error _ => none
  | .ok e1 =>
    let b0 : Option Int := none
    let spent := SpendCoin e1 b0
    let b1 := backendWriteCoin b0 spent.1
    let e3 := syncRetainCoin spent.1
    some (e3, b1)

/-!
Named cache entry states of the coins test suite, used to state the table
conformance theorems. VALUE1 is 100, VALUE2 is 200, VALUE3 is 300, exactly
as in the tests.
-/

/-- No entry in the map for the outpoint. -/
def MISSING : Option CCoinsCacheEntry := none

/-- Spent entry with neither flag. -/
def SPENT_CLEAN : Option CCoinsCacheEntry := some ⟨Coin.spent, false, false⟩

/-- Spent entry with only FRESH. -/
def SPENT_FRESH : Option CCoinsCacheEntry := some ⟨Coin.spent, false, true⟩

/-- Spent entry with only DIRTY. -/
def SPENT_DIRTY : Option CCoinsCacheEntry := some ⟨Coin.spent, true, false⟩

/-- Spent entry with DIRTY and FRESH. -/
def SPENT_DIRTY_FRESH : Option CCoinsCacheEntry :=
  some ⟨Coin.spent, true, true⟩

/-- Unspent entry of value 100 with neither flag. -/
def VALUE1_CLEAN : Option CCoinsCacheEntry :=
  some ⟨Coin.unspent 100, false, false⟩

/-- Unspent entry of value 100 with only FRESH. -/
def VALUE1_FRESH : Option CCoinsCacheEntry :=
  some ⟨Coin.unspent 100, false, true⟩

/-- Unspent entry of value 100 with only DIRTY. -/
def VALUE1_DIRTY : Option CCoinsCacheEntry :=
  some ⟨Coin.unspent 100, true, false⟩

/-- Unspent entry of value 100 with DIRTY and FRESH. -/
def VALUE1_DIRTY_FRESH : Option CCoinsCacheEntry :=
  some ⟨Coin.unspent 100, true, true⟩

/-- Unspent entry of value 200 with neither flag. -/
def VALUE2_CLEAN : Option CCoinsCacheEntry :=
  some ⟨Coin.unspent 200, false, false⟩

/-- Unspent entry of value 200 with only FRESH. -/
def VALUE2_FRESH : Option CCoinsCacheEntry :=
  some ⟨Coin.unspent 200, false, true⟩

/-- Unspent entry of value 200 with only DIRTY. -/
def VALUE2_DIRTY : Option CCoinsCacheEntry :=
  some ⟨Coin.unspent 200, true, false⟩

/-- Unspent entry of value 200 with DIRTY and FRESH. -/
def VALUE2_DIRTY_FRESH : Option CCoinsCacheEntry :=
  some ⟨Coin.unspent 200, true, true⟩

/-- Unspent entry of value 300 with only DIRTY. -/
def VALUE3_DIRTY : Option CCoinsCacheEntry :=
  some ⟨Coin.unspent 300, true, false⟩

/-- Unspent entry of value 300 with DIRTY and FRESH. -/
def VALUE3_DIRTY_FRESH : Option CCoinsCacheEntry :=
  some ⟨Coin.unspent 300, true, true⟩

/-- Parent lookup result used by the tables for a base that is absent or
spent: GetCoin yields nothing. -/
def BASE_MISS : Option Int := none

/-- Parent lookup result used by the tables for a base holding the unspent
VALUE1 coin. -/
def BASE_VALUE1 : Option Int := some 100

/-!
The headers pre-sync state machine, modelled from the spec (headerssync.cpp
and headerssync.h are absent from the corpus; the scenario behaviour is
pinned by the headers_sync_chainwork test suite in the corpus). The machine
is parametrised by the collaborators the spec names: a header hash
function, a proof-of-work predicate, a per-header work function, a
commitment tag function, the chain parameters (commitment period,
redownload buffer size, minimum required work) and the anchor block
(chain_start hash and the chain work up to and including it).
-/

/-- A block header as the spec describes it: previous-block hash, merkle
root, time, bits and nonce, each abstracted to a natural number. -/
structure BlockHeader where
  prevHash : Nat
  merkleRoot : Nat
  time : Nat
  bits : Nat
  nonce : Nat
deriving DecidableEq

/-- The collaborators and tuning parameters of the headers pre-sync
machine. -/
structure SyncParams where
  hashFn : BlockHeader → Nat
  powOk : BlockHeader → Bool
  workOf : BlockHeader → Nat
  commitOf : BlockHeader → Nat
  commitment_period : Nat
  redownload_buffer_size : Nat
  minimum_required_work : Nat
  chainStartHash : Nat
  chainStartWork : Nat

/-- The PRESYNC phase state: the hash of the last accepted header, the
accumulated chain work, the number of headers accepted so far, and the
commitments retained at every commitment-period boundary (oldest first). -/
structure PresyncData where
  tipHash : Nat
  totalWork : Nat
  headerCount : Nat
  commitments : List Nat
deriving DecidableEq

/-- The REDOWNLOAD phase state: the hash of the last redownloaded header,
the number of headers redownloaded so far, the commitments not yet
consumed, the buffered headers (oldest first) and the tip hash observed in
PRESYNC at which redownload completes. -/
structure RedownloadData where
  redownloadTip : Nat
  redownloadCount : Nat
  pendingCommitments : List Nat
  buffer : List BlockHeader
  presyncTipHash : Nat
deriving DecidableEq

/-- The three states of the machine: PRESYNC, REDOWNLOAD and the terminal
FINAL. -/
inductive SyncState where
  | presync (s : PresyncData)
  | redownload (r : RedownloadData)
  | final
deriving DecidableEq

/-- Whether a machine state is REDOWNLOAD. -/
def isRedownloadState : SyncState → Bool
  | SyncState.redownload _ => true
  | _ => false

/-- The result of one ProcessNextHeaders call: whether processing succeeded,
whether further batches are expected, and the headers released for
acceptance into the block index. -/
structure ProcessingResult where
  success : Bool
  request_more : Bool
  pow_validated_headers : List BlockHeader
deriving DecidableEq

/-- The reasons a redownloaded header is rejected: it fails proof of work
or does not chain, or it fails the commitment comparison at a boundary. -/
inductive RedownloadFailure where
  | badHeader
  | commitmentMismatch
deriving DecidableEq

/-- The initial machine state: PRESYNC anchored at chain_start, carrying
the chain work up to chain_start, no headers and no commitments. -/
def initialSyncState (P : SyncParams) : SyncState :=
  SyncState.presync ⟨P.chainStartHash, P.chainStartWork, 0, []⟩

/-- The PRESYNC state update for one accepted header: the tip advances, the
work accumulates, the count increases and at every commitment-period
boundary a commitment tag is retained. -/
def presyncStep (P : SyncParams) (s : PresyncData) (h : BlockHeader) :
    PresyncData :=
  { tipHash := P.hashFn h
    totalWork := s.totalWork + P.workOf h
    headerCount := s.headerCount + 1
    commitments :=
      if (s.headerCount + 1) % P.commitment_period == 0 then
        s.commitments ++ [P.commitOf h]
      else s.commitments }

/-- Modelled from the spec: PRESYNC processing of one header. The header
must pass proof of work and chain from the current tip; the state then
advances by presyncStep. -/
def presyncHeader (P : SyncParams) (s : PresyncData) (h : BlockHeader) :
    Option PresyncData :=
  if P.powOk h && (h.prevHash == s.tipHash) then some (presyncStep P s h)
  else none

/-- PRESYNC processing of a whole batch, header by header; the first
failing header aborts the batch. -/
def presyncBatch (P : SyncParams) :
    PresyncData → List BlockHeader → Option PresyncData
  | s, [] => some s
  | s, h :: rest =>
    match presyncHeader P s h with
    | some s2 => presyncBatch P s2 rest
    | none => none

/-- The PRESYNC state reached after a batch, ignoring validity checks; used
to reason about successful batches. -/
def presyncRun (P : SyncParams) :
    PresyncData → List BlockHeader → PresyncData
  | s, [] => s
  | s, h :: rest => presyncRun P (presyncStep P s h) rest

/-- The REDOWNLOAD state update for one accepted header: the tip advances,
the count increases, the header is appended to the buffer, and at every
commitment-period boundary the matched commitment is consumed. -/
def redownloadStep (P : SyncParams) (r : RedownloadData) (h : BlockHeader) :
    RedownloadData :=
  { redownloadTip := P.hashFn h
    redownloadCount := r.redownloadCount + 1
    pendingCommitments :=
      if (r.redownloadCount + 1) % P.commitment_period == 0 then
        r.pendingCommitments.tail
      else r.pendingCommitments
    buffer := r.buffer ++ [h]
    presyncTipHash := r.presyncTipHash }

/-- Modelled from the spec: REDOWNLOAD processing of one header. The header
must pass proof of work and chain from the redownload tip; at every
commitment-period boundary its commitment tag must equal the next stored
commitment, which is consumed; the state then advances by
redownloadStep. -/
def redownloadHeader (P : SyncParams) (r : RedownloadData)
    (h : BlockHeader) : Except RedownloadFailure RedownloadData :=
  if P.powOk h && (h.prevHash == r.redownloadTip) then
    if (r.redownloadCount + 1) % P.commitment_period == 0 then
      match r.pendingCommitments with
      | [] => .error RedownloadFailure.commitmentMismatch
      | c :: _ =>
        if c == P.commitOf h then .ok (redownloadStep P r h)
        else .error RedownloadFailure.commitmentMismatch
    else .ok (redownloadStep P r h)
  else .error RedownloadFailure.badHeader

/-- REDOWNLOAD processing of a whole batch, header by header; the first
failing header aborts the batch. -/
def redownloadBatch (P : SyncParams) :
    RedownloadData → List BlockHeader →
      Except RedownloadFailure RedownloadData
  | r, [] => .ok r
  | r, h :: rest =>
    match redownloadHeader P r h with
    | .ok r2 => redownloadBatch P r2 rest
    | .error e => .error e

/-- The REDOWNLOAD state reached after a batch, ignoring validity checks;
used to reason about successful batches. -/
def redownloadRun (P : SyncParams) :
    RedownloadData → List BlockHeader → RedownloadData
  | r, [] => r
  | r, h :: rest => redownloadRun P (redownloadStep P r h) rest

/-- Modelled from the spec: HeadersSyncState::ProcessNextHeaders. In
PRESYNC the batch is validated and commitments are stored; if the
accumulated work reaches the minimum the machine moves to REDOWNLOAD and
asks for the chain again from chain_start; otherwise a full message keeps
PRESYNC alive and a non-full message ends the sync as a legitimate but
too-weak chain. In REDOWNLOAD the batch is checked against the stored
commitments; a failure finalises unsuccessfully releasing nothing; reaching
the PRESYNC tip finalises successfully releasing the whole buffer;
otherwise the buffer overflow beyond the redownload buffer size is
released. Every unsuccessful or final outcome leaves the machine in
FINAL. -/
def ProcessNextHeaders (P : SyncParams) (st : SyncState)
    (headers : List BlockHeader) (full_headers_message : Bool) :
    SyncState × ProcessingResult :=
  match st with
  | SyncState.final => (SyncState.final, ⟨false, false, []⟩)
  | SyncState.presync s =>
    match presyncBatch P s headers with
    | none => (SyncState.final, ⟨false, false, []⟩)
    | some s2 =>
      if P.minimum_required_work ≤ s2.totalWork then
        (SyncState.redownload
          { redownloadTip := P.chainStartHash
            redownloadCount := 0
            pendingCommitments := s2.commitments
            buffer := []
            presyncTipHash := s2.tipHash },
         ⟨true, true, []⟩)
      else if full_headers_message then
        (SyncState.presync s2, ⟨true, true, []⟩)
      else (SyncState.final, ⟨true, false, []⟩)
  | SyncState.redownload r =>
    match redownloadBatch P r headers with
    | .error _ => (SyncState.final, ⟨false, false, []⟩)
    | .ok r2 =>
      if r2.redownloadTip == r2.presyncTipHash then
        (SyncState.final, ⟨true, false, r2.buffer⟩)
      else
        (SyncState.redownload
          { r2 with buffer :=
              r2.buffer.drop (r2.buffer.length - P.redownload_buffer_size) },
         ⟨true, true,
          r2.buffer.take (r2.buffer.length - P.redownload_buffer_size)⟩)

/-- Whether a list of headers passes proof of work and chains correctly
starting from the given tip hash. -/
def validChainFrom (P : SyncParams) (tip : Nat) : List BlockHeader → Bool
  | [] => true
  | h :: rest =>
    P.powOk h && (h.prevHash == tip) && validChainFrom P (P.hashFn h) rest

/-- The hash of the last header of a chain extending the given tip. -/
def chainTipFrom (P : SyncParams) (tip : Nat) : List BlockHeader → Nat
  | [] => tip
  | h :: rest => chainTipFrom P (P.hashFn h) rest

/-- The total work of a list of headers. -/
def chainWork (P : SyncParams) : List BlockHeader → Nat
  | [] => 0
  | h :: rest => P.workOf h + chainWork P rest

/-- The commitment tags a chain produces when processing starts with the
given header count. -/
def commitTags (P : SyncParams) (count : Nat) : List BlockHeader → List Nat
  | [] => []
  | h :: rest =>
    if (count + 1) % P.commitment_period == 0 then
      P.commitOf h :: commitTags P (count + 1) rest
    else commitTags P (count + 1) rest

/-- A concrete header for witness chains: the previous hash is the position
in the chain and the nonce is the next position, so that a hash function
reading the nonce chains them. -/
def demoHeader (i : Nat) : BlockHeader := ⟨i, 0, 0, 0, i + 1⟩

/-- A concrete chain of demo headers starting at the given position. -/
def demoChain : Nat → Nat → List BlockHeader
  | _, 0 => []
  | start, n + 1 => demoHeader start :: demoChain (start + 1) n

/-- Concrete machine parameters for witnesses, mirroring the values of the
headers_sync_chainwork test suite: commitment period 600, redownload buffer
15000 - (2000 + 123), minimum required work twice the 15000 target, anchor
hash 0 with work 2, every header carrying work 2 and passing proof of
work. -/
def demoParams : SyncParams :=
  { hashFn := fun h => h.nonce
    powOk := fun _ => true
    workOf := fun _ => 2
    commitOf := fun h => h.prevHash
    commitment_period := 600
    redownload_buffer_size := 12877
    minimum_required_work := 30000
    chainStartHash := 0
    chainStartWork := 2 }

/-- Machine parameters with commitment period one, used to exhibit a
commitment mismatch at the first redownloaded header. -/
def demoParamsPeriodOne : SyncParams :=
  { demoParams with commitment_period := 1 }

/-!
The kernel cache size policy, embedded from kernel/caches.h: the block tree
database gets at most MAX_BLOCK_DB_CACHE MiB, the coins database at most
MAX_COINS_DB_CACHE MiB, and the remainder goes to the in-memory coins
layer. Sizes are in bytes and nonnegative, as in the size_t variant of the
source and in every caller.
-/

/-- Max memory allocated to the block tree database cache, in MiB. -/
def MAX_BLOCK_DB_CACHE : Nat := 2

/-- Max memory allocated to the coins database cache, in MiB. -/
def MAX_COINS_DB_CACHE : Nat := 8

/-- Conversion from MiB to bytes, mirroring kernel::MiBToBytes. -/
def MiBToBytes (mib : Nat) : Nat := mib <<< 20

/-- The three cache budgets computed by kernel::CacheSizes. -/
structure CacheSizes where
  block_tree_db : Nat
  coins_db : Nat
  coins : Nat
deriving DecidableEq

/-- The kernel::CacheSizes constructor: carve the block tree budget out of
the total, then the coins database budget out of the rest, and give the
remainder to the coins layer. -/
def computeCacheSizes (total_cache : Nat) : CacheSizes :=
  let block_tree_db := min (total_cache / 8) (MiBToBytes MAX_BLOCK_DB_CACHE)
  let rem1 := total_cache - block_tree_db
  let coins_db := min (rem1 / 2) (MiBToBytes MAX_COINS_DB_CACHE)
  ⟨block_tree_db, coins_db, rem1 - coins_db⟩

/-- Decidable equality for Except values over decidable components, used to
evaluate the cache operation results in the table conformance proofs. -/
instance {ε α : Type} [DecidableEq ε] [DecidableEq α] :
    DecidableEq (Except ε α)
  | .ok a, .ok b =>
    if h : a = b then .isTrue (by rw [h])
    else .isFalse (by intro hc; cases hc; exact h rfl)
  | .ok _, .error _ => .isFalse (by intro hc; cases hc)
  | .error _, .ok _ => .isFalse (by intro hc; cases hc)
  | .error e, .error f =>
    if h : e = f then .isTrue (by rw [h])
    else .isFalse (by intro hc; cases hc; exact h rfl)

/-!
Conformance of the per-entry model with the behaviour tables of the coins
test suite in the corpus. Each conjunct below is one row of the
corresponding table, in the same order as in the test file. A base of
ABSENT or SPENT makes the parent lookup miss (GetCoin yields nothing for
absent and for spent coins alike), so those two base columns coincide in
the per-entry model and are stated once through BASE_MISS.
-/

/-- Every row of the ccoins_access table: the layer entry after AccessCoin,
for each base and cache state. -/
theorem ccoins_access_table :
    (AccessCoin MISSING BASE_MISS).1 = MISSING ∧
    (AccessCoin SPENT_CLEAN BASE_MISS).1 = SPENT_CLEAN ∧
    (AccessCoin SPENT_FRESH BASE_MISS).1 = SPENT_FRESH ∧
    (AccessCoin SPENT_DIRTY BASE_MISS).1 = SPENT_DIRTY ∧
    (AccessCoin SPENT_DIRTY_FRESH BASE_MISS).1 = SPENT_DIRTY_FRESH ∧
    (AccessCoin VALUE2_CLEAN BASE_MISS).1 = VALUE2_CLEAN ∧
    (AccessCoin VALUE2_FRESH BASE_MISS).1 = VALUE2_FRESH ∧
    (AccessCoin VALUE2_DIRTY BASE_MISS).1 = VALUE2_DIRTY ∧
    (AccessCoin VALUE2_DIRTY_FRESH BASE_MISS).1 = VALUE2_DIRTY_FRESH ∧
    (AccessCoin MISSING BASE_VALUE1).1 = VALUE1_CLEAN ∧
    (AccessCoin SPENT_CLEAN BASE_VALUE1).1 = SPENT_CLEAN ∧
    (AccessCoin SPENT_FRESH BASE_VALUE1).1 = SPENT_FRESH ∧
    (AccessCoin SPENT_DIRTY BASE_VALUE1).1 = SPENT_DIRTY ∧
    (AccessCoin SPENT_DIRTY_FRESH BASE_VALUE1).1 = SPENT_DIRTY_FRESH ∧
    (AccessCoin VALUE2_CLEAN BASE_VALUE1).1 = VALUE2_CLEAN ∧
    (AccessCoin VALUE2_FRESH BASE_VALUE1).1 = VALUE2_FRESH ∧
    (AccessCoin VALUE2_DIRTY BASE_VALUE1).1 = VALUE2_DIRTY ∧
    (AccessCoin VALUE2_DIRTY_FRESH BASE_VALUE1).1 = VALUE2_DIRTY_FRESH := by
  decide

/-- Every row of the ccoins_spend table: the layer entry after SpendCoin,
for each base and cache state. -/
theorem ccoins_spend_table :
    (SpendCoin MISSING BASE_MISS).1 = MISSING ∧
    (SpendCoin SPENT_CLEAN BASE_MISS).1 = SPENT_DIRTY ∧
    (SpendCoin SPENT_FRESH BASE_MISS).1 = MISSING ∧
    (SpendCoin SPENT_DIRTY BASE_MISS).1 = SPENT_DIRTY ∧
    (SpendCoin SPENT_DIRTY_FRESH BASE_MISS).1 = MISSING ∧
    (SpendCoin VALUE2_CLEAN BASE_MISS).1 = SPENT_DIRTY ∧
    (SpendCoin VALUE2_FRESH BASE_MISS).1 = MISSING ∧
    (SpendCoin VALUE2_DIRTY BASE_MISS).1 = SPENT_DIRTY ∧
    (SpendCoin VALUE2_DIRTY_FRESH BASE_MISS).1 = MISSING ∧
    (SpendCoin MISSING BASE_VALUE1).1 = SPENT_DIRTY ∧
    (SpendCoin SPENT_CLEAN BASE_VALUE1).1 = SPENT_DIRTY ∧
    (SpendCoin SPENT_FRESH BASE_VALUE1).1 = MISSING ∧
    (SpendCoin SPENT_DIRTY BASE_VALUE1).1 = SPENT_DIRTY ∧
    (SpendCoin SPENT_DIRTY_FRESH BASE_VALUE1).1 = MISSING ∧
    (SpendCoin VALUE2_CLEAN BASE_VALUE1).1 = SPENT_DIRTY ∧
    (SpendCoin VALUE2_FRESH BASE_VALUE1).1 = MISSING ∧
    (SpendCoin VALUE2_DIRTY BASE_VALUE1).1 = SPENT_DIRTY ∧
    (SpendCoin VALUE2_DIRTY_FRESH BASE_VALUE1).1 = MISSING := by
  decide

/-- Every row of the ccoins_add table: AddCoin of the VALUE3 coin over each
cache state, for both values of the overwrite permission (the test passes
the coinbase flag as possible_overwrite). AddCoin never consults the
parent, so the base column of the test is irrelevant, as the test itself
demonstrates by iterating all three base values. -/
theorem ccoins_add_table :
    AddCoin MISSING 300 false = .ok VALUE3_DIRTY_FRESH ∧
    AddCoin MISSING 300 true = .ok VALUE3_DIRTY ∧
    AddCoin SPENT_CLEAN 300 false = .ok VALUE3_DIRTY_FRESH ∧
    AddCoin SPENT_CLEAN 300 true = .ok VALUE3_DIRTY ∧
    AddCoin SPENT_FRESH 300 false = .ok VALUE3_DIRTY_FRESH ∧
    AddCoin SPENT_FRESH 300 true = .ok VALUE3_DIRTY_FRESH ∧
    AddCoin SPENT_DIRTY 300 false = .ok VALUE3_DIRTY ∧
    AddCoin SPENT_DIRTY 300 true = .ok VALUE3_DIRTY ∧
    AddCoin SPENT_DIRTY_FRESH 300 false = .ok VALUE3_DIRTY_FRESH ∧
    AddCoin SPENT_DIRTY_FRESH 300 true = .ok VALUE3_DIRTY_FRESH ∧
    AddCoin VALUE2_CLEAN 300 false = .error .overwriteUnspent ∧
    AddCoin VALUE2_CLEAN 300 true = .ok VALUE3_DIRTY ∧
    AddCoin VALUE2_FRESH 300 false = .error .overwriteUnspent ∧
    AddCoin VALUE2_FRESH 300 true = .ok VALUE3_DIRTY_FRESH ∧
    AddCoin VALUE2_DIRTY 300 false = .error .overwriteUnspent ∧
    AddCoin VALUE2_DIRTY 300 true = .ok VALUE3_DIRTY ∧
    AddCoin VALUE2_DIRTY_FRESH 300 false = .error .overwriteUnspent ∧
    AddCoin VALUE2_DIRTY_FRESH 300 true = .ok VALUE3_DIRTY_FRESH := by
  decide

/-- Every explicit row of the first half of the ccoins_write table (absent
and spent parents): the parent entry after a child entry is flushed into
it. -/
theorem ccoins_write_table_spent_parents :
    BatchWriteCoin MISSING MISSING = .ok MISSING ∧
    BatchWriteCoin MISSING SPENT_DIRTY = .ok SPENT_DIRTY ∧
    BatchWriteCoin MISSING SPENT_DIRTY_FRESH = .ok MISSING ∧
    BatchWriteCoin MISSING VALUE2_DIRTY = .ok VALUE2_DIRTY ∧
    BatchWriteCoin MISSING VALUE2_DIRTY_FRESH = .ok VALUE2_DIRTY_FRESH ∧
    BatchWriteCoin SPENT_CLEAN MISSING = .ok SPENT_CLEAN ∧
    BatchWriteCoin SPENT_FRESH MISSING = .ok SPENT_FRESH ∧
    BatchWriteCoin SPENT_DIRTY MISSING = .ok SPENT_DIRTY ∧
    BatchWriteCoin SPENT_DIRTY_FRESH MISSING = .ok SPENT_DIRTY_FRESH ∧
    BatchWriteCoin SPENT_CLEAN SPENT_DIRTY = .ok SPENT_DIRTY ∧
    BatchWriteCoin SPENT_CLEAN SPENT_DIRTY_FRESH = .ok SPENT_DIRTY ∧
    BatchWriteCoin SPENT_FRESH SPENT_DIRTY = .ok MISSING ∧
    BatchWriteCoin SPENT_FRESH SPENT_DIRTY_FRESH = .ok MISSING ∧
    BatchWriteCoin SPENT_DIRTY SPENT_DIRTY = .ok SPENT_DIRTY ∧
    BatchWriteCoin SPENT_DIRTY SPENT_DIRTY_FRESH = .ok SPENT_DIRTY ∧
    BatchWriteCoin SPENT_DIRTY_FRESH SPENT_DIRTY = .ok MISSING ∧
    BatchWriteCoin SPENT_DIRTY_FRESH SPENT_DIRTY_FRESH = .ok MISSING ∧
    BatchWriteCoin SPENT_CLEAN VALUE2_DIRTY = .ok VALUE2_DIRTY ∧
    BatchWriteCoin SPENT_CLEAN VALUE2_DIRTY_FRESH = .ok VALUE2_DIRTY ∧
    BatchWriteCoin SPENT_FRESH VALUE2_DIRTY = .ok VALUE2_DIRTY_FRESH ∧
    BatchWriteCoin SPENT_FRESH VALUE2_DIRTY_FRESH = .ok VALUE2_DIRTY_FRESH ∧
    BatchWriteCoin SPENT_DIRTY VALUE2_DIRTY = .ok VALUE2_DIRTY ∧
    BatchWriteCoin SPENT_DIRTY VALUE2_DIRTY_FRESH = .ok VALUE2_DIRTY ∧
    BatchWriteCoin SPENT_DIRTY_FRESH VALUE2_DIRTY = .ok VALUE2_DIRTY_FRESH ∧
    BatchWriteCoin SPENT_DIRTY_FRESH VALUE2_DIRTY_FRESH
      = .ok VALUE2_DIRTY_FRESH := by
  exact ⟨rfl, rfl, rfl, rfl, rfl, rfl, rfl, rfl, rfl, rfl, rfl, rfl, rfl, rfl, rfl, rfl, rfl, rfl, rfl, rfl, rfl, rfl, rfl, rfl, rfl⟩

/-- Every explicit row of the second half of the ccoins_write table
(unspent parents): the parent entry after a child entry is flushed into it,
or the contract violation. -/
theorem ccoins_write_table_unspent_parents :
    BatchWriteCoin VALUE1_CLEAN MISSING = .ok VALUE1_CLEAN ∧
    BatchWriteCoin VALUE1_FRESH MISSING = .ok VALUE1_FRESH ∧
    BatchWriteCoin VALUE1_DIRTY MISSING = .ok VALUE1_DIRTY ∧
    BatchWriteCoin VALUE1_DIRTY_FRESH MISSING = .ok VALUE1_DIRTY_FRESH ∧
    BatchWriteCoin VALUE1_CLEAN SPENT_DIRTY = .ok SPENT_DIRTY ∧
    BatchWriteCoin VALUE1_CLEAN SPENT_DIRTY_FRESH
      = .error .freshMisapplied ∧
    BatchWriteCoin VALUE1_FRESH SPENT_DIRTY = .ok MISSING ∧
    BatchWriteCoin VALUE1_FRESH SPENT_DIRTY_FRESH
      = .error .freshMisapplied ∧
    BatchWriteCoin VALUE1_DIRTY SPENT_DIRTY = .ok SPENT_DIRTY ∧
    BatchWriteCoin VALUE1_DIRTY SPENT_DIRTY_FRESH
      = .error .freshMisapplied ∧
    BatchWriteCoin VALUE1_DIRTY_FRESH SPENT_DIRTY = .ok MISSING ∧
    BatchWriteCoin VALUE1_DIRTY_FRESH SPENT_DIRTY_FRESH
      = .error .freshMisapplied ∧
    BatchWriteCoin VALUE1_CLEAN VALUE2_DIRTY = .ok VALUE2_DIRTY ∧
    BatchWriteCoin VALUE1_CLEAN VALUE2_DIRTY_FRESH
      = .error .freshMisapplied ∧
    BatchWriteCoin VALUE1_FRESH VALUE2_DIRTY = .ok VALUE2_DIRTY_FRESH ∧
    BatchWriteCoin VALUE1_FRESH VALUE2_DIRTY_FRESH
      = .error .freshMisapplied ∧
    BatchWriteCoin VALUE1_DIRTY VALUE2_DIRTY = .ok VALUE2_DIRTY ∧
    BatchWriteCoin VALUE1_DIRTY VALUE2_DIRTY_FRESH
      = .error .freshMisapplied ∧
    BatchWriteCoin VALUE1_DIRTY_FRESH VALUE2_DIRTY
      = .ok VALUE2_DIRTY_FRESH ∧
    BatchWriteCoin VALUE1_DIRTY_FRESH VALUE2_DIRTY_FRESH
      = .error .freshMisapplied := by
  exact ⟨rfl, rfl, rfl, rfl, rfl, rfl, rfl, rfl, rfl, rfl, rfl, rfl, rfl, rfl, rfl, rfl, rfl, rfl, rfl, rfl⟩

/-- The closing loop of the ccoins_write table: a child entry that is not
DIRTY never changes the parent, for every parent state. -/
theorem ccoins_write_nondirty_table :
    ∀ p ∈ [MISSING, SPENT_CLEAN, SPENT_DIRTY, SPENT_FRESH,
           SPENT_DIRTY_FRESH, VALUE1_CLEAN, VALUE1_DIRTY, VALUE1_FRESH,
           VALUE1_DIRTY_FRESH],
    ∀ c ∈ [MISSING, SPENT_CLEAN, SPENT_FRESH, VALUE2_CLEAN, VALUE2_FRESH],
    BatchWriteCoin p c = .ok p := by
  decide

/-!
Helper lemmas about batch processing of valid chains, used by the headers
pre-sync theorems.
-/

/-- PRESYNC processing of a valid chain succeeds and reaches the run
state. -/
theorem presyncBatch_ok (P : SyncParams) (c : List BlockHeader) :
    ∀ s : PresyncData, validChainFrom P s.tipHash c = true →
      presyncBatch P s c = some (presyncRun P s c) := by
  induction c with
  | nil => intro s _; rfl
  | cons h rest ih =>
    intro s hv
    simp only [validChainFrom, Bool.and_eq_true] at hv
    obtain ⟨⟨hpow, hprev⟩, hrest⟩ := hv
    have hstep : presyncHeader P s h = some (presyncStep P s h) := by
      simp [presyncHeader, hpow, hprev]
    simp only [presyncBatch, hstep, presyncRun]
    exact ih (presyncStep P s h) hrest

/-- The work accumulated by a PRESYNC run is the chain work of the
batch. -/
theorem presyncRun_totalWork (P : SyncParams) (c : List BlockHeader) :
    ∀ s : PresyncData,
      (presyncRun P s c).totalWork = s.totalWork + chainWork P c := by
  induction c with
  | nil => intro s; simp [presyncRun, chainWork]
  | cons h rest ih =>
    intro s
    simp only [presyncRun, chainWork, ih, presyncStep]
    omega

/-- The tip reached by a PRESYNC run is the chain tip of the batch. -/
theorem presyncRun_tipHash (P : SyncParams) (c : List BlockHeader) :
    ∀ s : PresyncData,
      (presyncRun P s c).tipHash = chainTipFrom P s.tipHash c := by
  induction c with
  | nil => intro s; rfl
  | cons h rest ih =>
    intro s
    simp only [presyncRun, chainTipFrom]
    exact ih (presyncStep P s h)

/-- The commitments retained by a PRESYNC run are the previous ones
followed by the tags of the batch. -/
theorem presyncRun_commitments (P : SyncParams) (c : List BlockHeader) :
    ∀ s : PresyncData,
      (presyncRun P s c).commitments
        = s.commitments ++ commitTags P s.headerCount c := by
  induction c with
  | nil => intro s; simp [presyncRun, commitTags]
  | cons h rest ih =>
    intro s
    simp only [presyncRun, commitTags]
    rw [ih (presyncStep P s h)]
    by_cases hb : ((s.headerCount + 1) % P.commitment_period == 0) = true
    · simp [presyncStep, hb, List.append_assoc]
    · simp only [presyncStep, if_neg hb]

/-- REDOWNLOAD processing of a valid chain whose pending commitments start
with exactly the tags of the batch succeeds and reaches the run state. -/
theorem redownloadBatch_ok (P : SyncParams) (c : List BlockHeader) :
    ∀ (r : RedownloadData) (extra : List Nat),
      validChainFrom P r.redownloadTip c = true →
      r.pendingCommitments = commitTags P r.redownloadCount c ++ extra →
      redownloadBatch P r c = .ok (redownloadRun P r c) := by
  induction c with
  | nil => intro r extra _ _; rfl
  | cons h rest ih =>
    intro r extra hv hpend
    simp only [validChainFrom, Bool.and_eq_true] at hv
    obtain ⟨⟨hpow, hprev⟩, hrest⟩ := hv
    by_cases hb : ((r.redownloadCount + 1) % P.commitment_period == 0) = true
    · have htags : commitTags P r.redownloadCount (h :: rest)
          = P.commitOf h :: commitTags P (r.redownloadCount + 1) rest := by
        simp only [commitTags, if_pos hb]
      rw [htags] at hpend
      have hstep : redownloadHeader P r h = .ok (redownloadStep P r h) := by
        simp [redownloadHeader, hpow, hprev, hb, hpend]
      simp only [redownloadBatch, hstep, redownloadRun]
      refine ih (redownloadStep P r h) extra hrest ?_
      show (if (r.redownloadCount + 1) % P.commitment_period == 0 then
              r.pendingCommitments.tail
            else r.pendingCommitments)
          = commitTags P (r.redownloadCount + 1) rest ++ extra
      rw [if_pos hb, hpend]
      rfl
    · have htags : commitTags P r.redownloadCount (h :: rest)
          = commitTags P (r.redownloadCount + 1) rest := by
        simp only [commitTags]
        rw [if_neg hb]
      rw [htags] at hpend
      have hstep : redownloadHeader P r h = .ok (redownloadStep P r h) := by
        simp only [redownloadHeader, hpow, hprev, Bool.and_self, if_true]
        rw [if_neg hb]
      simp only [redownloadBatch, hstep, redownloadRun]
      refine ih (redownloadStep P r h) extra hrest ?_
      show (if (r.redownloadCount + 1) % P.commitment_period == 0 then
              r.pendingCommitments.tail
            else r.pendingCommitments)
          = commitTags P (r.redownloadCount + 1) rest ++ extra
      rw [if_neg hb]
      exact hpend

/-- The buffer of a REDOWNLOAD run is the previous buffer followed by the
whole batch. -/
theorem redownloadRun_buffer (P : SyncParams) (c : List BlockHeader) :
    ∀ r : RedownloadData,
      (redownloadRun P r c).buffer = r.buffer ++ c := by
  induction c with
  | nil => intro r; simp [redownloadRun]
  | cons h rest ih =>
    intro r
    simp only [redownloadRun]
    rw [ih (redownloadStep P r h)]
    simp [redownloadStep]

/-- The tip reached by a REDOWNLOAD run is the chain tip of the batch. -/
theorem redownloadRun_tip (P : SyncParams) (c : List BlockHeader) :
    ∀ r : RedownloadData,
      (redownloadRun P r c).redownloadTip
        = chainTipFrom P r.redownloadTip c := by
  induction c with
  | nil => intro r; rfl
  | cons h rest ih =>
    intro r
    simp only [redownloadRun, chainTipFrom]
    exact ih (redownloadStep P r h)

/-- A REDOWNLOAD run does not change the recorded PRESYNC tip. -/
theorem redownloadRun_presyncTip (P : SyncParams) (c : List BlockHeader) :
    ∀ r : RedownloadData,
      (redownloadRun P r c).presyncTipHash = r.presyncTipHash := by
  induction c with
  | nil => intro r; rfl
  | cons h rest ih =>
    intro r
    simp only [redownloadRun]
    exact ih (redownloadStep P r h)

/-- The demo chain starting at any position has the requested length. -/
theorem demoChain_length (start n : Nat) :
    (demoChain start n).length = n := by
  induction n generalizing start with
  | zero => rfl
  | succ k ih => simp [demoChain, ih]

/-- The demo chain starting at any position is a valid chain from that
position under the demo parameters. -/
theorem demoChain_valid (start n : Nat) :
    validChainFrom demoParams start (demoChain start n) = true := by
  induction n generalizing start with
  | zero => rfl
  | succ k ih =>
    have hu : validChainFrom demoParams start (demoChain start (k + 1))
        = ((true && (start == start))
            && validChainFrom demoParams (start + 1)
                 (demoChain (start + 1) k)) := rfl
    rw [hu, ih (start + 1)]
    simp

/-- The demo chain carries work two per header. -/
theorem demoChain_work (start n : Nat) :
    chainWork demoParams (demoChain start n) = 2 * n := by
  induction n generalizing start with
  | zero => rfl
  | succ k ih =>
    have hu : chainWork demoParams (demoChain start (k + 1))
        = 2 + chainWork demoParams (demoChain (start + 1) k) := rfl
    rw [hu, ih (start + 1)]
    omega

/-!
The claims.
-/

/-- Claim C1: a DIRTY spent child entry flushed into a FRESH parent entry
(whatever its coin and DIRTY flag) leaves the parent entry absent; a
DIRTY and FRESH spent child over an absent parent entry likewise collapses
to absence; and adding then spending an outpoint within one layer followed
by Sync leaves no layer entry and no backend coin, so the backend reports
has equal to false. -/
theorem spent_fresh_child_collapses_to_absence :
    (∀ (pc : Coin) (pd : Bool),
        BatchWriteCoin (some ⟨pc, pd, true⟩)
            (some ⟨Coin.spent, true, false⟩) = .ok none) ∧
    BatchWriteCoin none (some ⟨Coin.spent, true, true⟩) = .ok none ∧
    (∀ v : Int, AddSpendSyncScenario v = some (none, none)) ∧
    backendHasCoin none = false := by
  refine ⟨?_, rfl, ?_, rfl⟩
  · intro pc pd
    rfl
  · intro v
    rfl

/-- Claim C2 fails as stated: a child entry carrying FRESH but not DIRTY
over an unspent parent entry does not fail; the write is a no-op and the
parent entry is unchanged, exactly as the closing loop of the ccoins_write
table demands (parent VALUE1 CLEAN, child VALUE2 FRESH). -/
theorem fresh_only_child_over_unspent_parent_is_noop :
    BatchWriteCoin VALUE1_CLEAN VALUE2_FRESH = .ok VALUE1_CLEAN ∧
    ∀ err : CoinsLogicError,
      BatchWriteCoin VALUE1_CLEAN VALUE2_FRESH ≠ .error err := by
  refine ⟨rfl, ?_⟩
  intro err h
  rw [show BatchWriteCoin VALUE1_CLEAN VALUE2_FRESH
      = Except.ok VALUE1_CLEAN from rfl] at h
  exact Except.noConfusion h

/-- Claim C2 amended: for every unspent parent entry, under any flags,
batch_write receiving a DIRTY child entry carrying FRESH, whatever the
child coin, fails as a fatal contract violation; the failure carries no
updated parent entry, and a child entry without DIRTY is skipped, leaving
the parent unchanged without failing. -/
theorem dirty_fresh_child_over_unspent_parent_fails
    (v : Int) (pd pf : Bool) (cc : Coin) :
    BatchWriteCoin (some ⟨Coin.unspent v, pd, pf⟩) (some ⟨cc, true, true⟩)
      = .error CoinsLogicError.freshMisapplied := rfl

/-- Claim C3 fails as stated: adding over a spent CLEAN entry without
overwrite permission produces a DIRTY and FRESH entry although the
previous entry did not carry FRESH, exactly as the ccoins_add table row
for a SPENT CLEAN cache entry demands. -/
theorem add_over_spent_clean_counterexample :
    AddCoin SPENT_CLEAN 300 false = .ok VALUE3_DIRTY_FRESH ∧
    VALUE3_DIRTY_FRESH ≠ VALUE3_DIRTY ∧
    SPENT_CLEAN = some ⟨Coin.spent, false, false⟩ :=
  ⟨rfl, by decide, rfl⟩

/-- Claim C3 amended: over a spent entry, for either value of
possible_overwrite, AddCoin produces a DIRTY entry that carries FRESH
exactly when the previous entry carried FRESH or possible_overwrite is
false and the previous entry was not DIRTY. -/
theorem add_coin_over_spent_entry_flags
    (d f : Bool) (v : Int) (po : Bool) :
    AddCoin (some ⟨Coin.spent, d, f⟩) v po
      = .ok (some ⟨Coin.unspent v, true, f || (!po && !d)⟩) := by
  cases po <;> rfl

/-- Claim C4 fails as stated: when the entry is absent and the parent
lookup misses, AccessCoin inserts nothing; the layer is left without an
entry rather than with a spent CLEAN entry, exactly as the ccoins_access
table rows with an absent cache entry and an ABSENT or SPENT base
demand. -/
theorem access_double_miss_counterexample :
    AccessCoin MISSING BASE_MISS = (MISSING, Coin.spent) ∧
    (AccessCoin MISSING BASE_MISS).1 ≠ SPENT_CLEAN :=
  ⟨rfl, by decide⟩

/-- Claim C4 amended: when the entry is absent and the parent lookup
misses, AccessCoin leaves the layer without an entry and returns a spent
coin. -/
theorem access_double_miss_no_insertion :
    AccessCoin MISSING BASE_MISS = (MISSING, Coin.spent) := rfl

/-- Claim C5: SpendCoin resolves the entry, consulting the parent if
needed; a resolved unspent entry is marked spent, being removed entirely
from the layer when it was FRESH and otherwise left spent with DIRTY set
and FRESH cleared; and the call returns true exactly when an unspent
entry was found. -/
theorem spend_coin_contract (e : Option CCoinsCacheEntry) (p : Option Int) :
    ((SpendCoin e p).2 = true ↔
      ∃ ent, FetchCoin e p = some ent ∧ ent.coin.isSpent = false) ∧
    (∀ ent, FetchCoin e p = some ent → ent.coin.isSpent = false →
      (SpendCoin e p).1
        = if ent.fresh then none
          else some ⟨Coin.spent, true, false⟩) := by
  cases hf : FetchCoin e p with
  | none =>
    constructor
    · simp [SpendCoin, hf]
    · intro ent hent
      exact absurd hent (by simp)
  | some ent0 =>
    have hs : SpendCoin e p
        = (if ent0.fresh then (none, !ent0.coin.isSpent)
           else (some ⟨Coin.spent, true, false⟩, !ent0.coin.isSpent)) := by
      simp [SpendCoin, hf]
    constructor
    · rw [hs]
      by_cases hfr : ent0.fresh = true <;>
        by_cases hsp : ent0.coin.isSpent = true <;>
          simp [hfr, hsp, hf]
    · intro ent hent hunspent
      injection hent with heq
      subst heq
      rw [hs]
      by_cases hfr : ent0.fresh = true <;> simp [hfr]

/-- Witness for the SpendCoin contract: spending a DIRTY FRESH unspent
entry erases it from the layer. -/
theorem spend_coin_contract_witness :
    (SpendCoin (some ⟨Coin.unspent 7, true, true⟩) none).1 = none :=
  (spend_coin_contract (some ⟨Coin.unspent 7, true, true⟩) none).2
    ⟨Coin.unspent 7, true, true⟩ rfl rfl

/-- Claim C10: spending an already spent entry removes it from the layer
entirely when it carries FRESH, with or without DIRTY, and otherwise
leaves it spent with DIRTY set; in particular a CLEAN spent entry becomes
DIRTY spent. -/
theorem spend_coin_spent_entry_effect (d f : Bool) (p : Option Int) :
    (SpendCoin (some ⟨Coin.spent, d, f⟩) p).1
      = if f then none else some ⟨Coin.spent, true, false⟩ := by
  cases f <;> rfl

/-- Claim C9: for every total byte budget, the cache size policy gives
the block tree database at most MAX_BLOCK_DB_CACHE MiB, the coins
database at most MAX_COINS_DB_CACHE MiB, gives the entire remainder to
the coins layer, and the three computed sizes sum exactly to the input
total. -/
theorem cache_sizes_policy (total_cache : Nat) :
    (computeCacheSizes total_cache).block_tree_db
        ≤ MiBToBytes MAX_BLOCK_DB_CACHE ∧
    (computeCacheSizes total_cache).coins_db
        ≤ MiBToBytes MAX_COINS_DB_CACHE ∧
    (computeCacheSizes total_cache).coins
        = total_cache - (computeCacheSizes total_cache).block_tree_db
            - (computeCacheSizes total_cache).coins_db ∧
    (computeCacheSizes total_cache).block_tree_db
        + (computeCacheSizes total_cache).coins_db
        + (computeCacheSizes total_cache).coins = total_cache := by
  refine ⟨Nat.min_le_right _ _, Nat.min_le_right _ _, rfl, ?_⟩
  show min (total_cache / 8) (MiBToBytes MAX_BLOCK_DB_CACHE)
      + min ((total_cache
          - min (total_cache / 8) (MiBToBytes MAX_BLOCK_DB_CACHE)) / 2)
          (MiBToBytes MAX_COINS_DB_CACHE)
      + ((total_cache
          - min (total_cache / 8) (MiBToBytes MAX_BLOCK_DB_CACHE))
          - min ((total_cache
              - min (total_cache / 8) (MiBToBytes MAX_BLOCK_DB_CACHE)) / 2)
              (MiBToBytes MAX_COINS_DB_CACHE)) = total_cache
  omega

/-- Claim C7 fails as stated: a batch whose first header does not chain
from the PRESYNC tip, delivered with a non-full message while work is
below the minimum, finalises with success false, not success true. -/
theorem presync_nonfull_claim_counterexample :
    initialSyncState demoParams = SyncState.presync ⟨0, 2, 0, []⟩ ∧
    (2 : Nat) < demoParams.minimum_required_work ∧
    (ProcessNextHeaders demoParams (initialSyncState demoParams)
        [⟨99, 0, 0, 0, 1⟩] false).2.success = false :=
  ⟨rfl, by decide, rfl⟩

/-- Claim C7 amended: in PRESYNC, a batch of headers that all pass proof
of work and chain correctly, delivered with a non-full message while the
accumulated work including the batch is still below the minimum required
work, finalises with success true, no further requests and no released
headers. -/
theorem presync_nonfull_low_work_final (P : SyncParams) (s : PresyncData)
    (batch : List BlockHeader)
    (hvalid : validChainFrom P s.tipHash batch = true)
    (hwork : s.totalWork + chainWork P batch < P.minimum_required_work) :
    ProcessNextHeaders P (SyncState.presync s) batch false
      = (SyncState.final, ⟨true, false, []⟩) := by
  have hbatch := presyncBatch_ok P batch s hvalid
  have hw2 : ¬ P.minimum_required_work
      ≤ (presyncRun P s batch).totalWork := by
    rw [presyncRun_totalWork]
    omega
  simp only [ProcessNextHeaders, hbatch]
  rw [if_neg hw2]
  rfl

/-- Witness for the amended claim C7: one valid demo header with a
non-full message and insufficient work finalises successfully with
nothing released. -/
theorem presync_nonfull_low_work_final_witness :
    ProcessNextHeaders demoParams (SyncState.presync ⟨0, 2, 0, []⟩)
        (demoChain 0 1) false
      = (SyncState.final, ⟨true, false, []⟩) :=
  presync_nonfull_low_work_final demoParams ⟨0, 2, 0, []⟩ (demoChain 0 1)
    (demoChain_valid 0 1)
    (by rw [demoChain_work]; decide)

/-- Claim C8: in REDOWNLOAD, a batch that fails the commitment comparison
at a commitment-period boundary finalises with success false, no further
requests and no released headers, so no header of the mismatching batch
is released; and a call in PRESYNC never releases headers, whatever the
batch and the message flag. -/
theorem redownload_commitment_mismatch_final (P : SyncParams) :
    (∀ (r : RedownloadData) (batch : List BlockHeader) (full : Bool),
        redownloadBatch P r batch
            = .error RedownloadFailure.commitmentMismatch →
        ProcessNextHeaders P (SyncState.redownload r) batch full
          = (SyncState.final, ⟨false, false, []⟩)) ∧
    (∀ (s : PresyncData) (batch : List BlockHeader) (full : Bool),
        (ProcessNextHeaders P (SyncState.presync s) batch
            full).2.pow_validated_headers = []) := by
  constructor
  · intro r batch full hfail
    simp [ProcessNextHeaders, hfail]
  · intro s batch full
    simp only [ProcessNextHeaders]
    cases hb : presyncBatch P s batch with
    | none => rfl
    | some s2 =>
      cases full <;>
        by_cases hw : P.minimum_required_work ≤ s2.totalWork <;>
          simp [hw]

/-- Witness for claim C8: with commitment period one, a redownloaded
header that has no matching stored commitment finalises with success
false and nothing released. -/
theorem redownload_commitment_mismatch_final_witness :
    ProcessNextHeaders demoParamsPeriodOne
        (SyncState.redownload ⟨0, 0, [], [], 99⟩) [⟨0, 0, 0, 0, 1⟩] true
      = (SyncState.final, ⟨false, false, []⟩) :=
  (redownload_commitment_mismatch_final demoParamsPeriodOne).1
    ⟨0, 0, [], [], 99⟩ [⟨0, 0, 0, 0, 1⟩] true rfl

/-- Claim C6: feeding the machine a chain of fifteen thousand headers of
valid proof of work whose cumulative work reaches the minimum, with a
full message, succeeds and asks for more with the state in REDOWNLOAD; a
second call with the same chain succeeds, asks for no more, finalises,
and releases exactly fifteen thousand headers whose first element chains
from the anchor hash. -/
theorem headers_sync_happy_path (P : SyncParams) (chain : List BlockHeader)
    (hlen : chain.length = 15000)
    (hvalid : validChainFrom P P.chainStartHash chain = true)
    (hwork : P.minimum_required_work
        ≤ P.chainStartWork + chainWork P chain) :
    ((ProcessNextHeaders P (initialSyncState P) chain true).2
        = ⟨true, true, []⟩ ∧
     isRedownloadState
        (ProcessNextHeaders P (initialSyncState P) chain true).1 = true) ∧
    ((ProcessNextHeaders P
        (ProcessNextHeaders P (initialSyncState P) chain true).1
        chain true).1 = SyncState.final ∧
     (ProcessNextHeaders P
        (ProcessNextHeaders P (initialSyncState P) chain true).1
        chain true).2.success = true ∧
     (ProcessNextHeaders P
        (ProcessNextHeaders P (initialSyncState P) chain true).1
        chain true).2.request_more = false ∧
     (ProcessNextHeaders P
        (ProcessNextHeaders P (initialSyncState P) chain true).1
        chain true).2.pow_validated_headers.length = 15000 ∧
     ∃ h0 rest,
       (ProcessNextHeaders P
          (ProcessNextHeaders P (initialSyncState P) chain true).1
          chain true).2.pow_validated_headers = h0 :: rest ∧
       h0.prevHash = P.chainStartHash) := by
  have hbatch : presyncBatch P ⟨P.chainStartHash, P.chainStartWork, 0, []⟩
      chain
      = some (presyncRun P ⟨P.chainStartHash, P.chainStartWork, 0, []⟩
          chain) :=
    presyncBatch_ok P chain ⟨P.chainStartHash, P.chainStartWork, 0, []⟩
      hvalid
  have hw2 : P.minimum_required_work
      ≤ (presyncRun P ⟨P.chainStartHash, P.chainStartWork, 0, []⟩
          chain).totalWork := by
    rw [presyncRun_totalWork]
    exact hwork
  have h1 : ProcessNextHeaders P (initialSyncState P) chain true
      = (SyncState.redownload
          ⟨P.chainStartHash, 0,
           (presyncRun P ⟨P.chainStartHash, P.chainStartWork, 0, []⟩
             chain).commitments, [],
           (presyncRun P ⟨P.chainStartHash, P.chainStartWork, 0, []⟩
             chain).tipHash⟩,
         ⟨true, true, []⟩) := by
    simp only [ProcessNextHeaders, initialSyncState, hbatch]
    rw [if_pos hw2]
  have hpend :
      (presyncRun P ⟨P.chainStartHash, P.chainStartWork, 0, []⟩
        chain).commitments
      = commitTags P 0 chain ++ [] := by
    rw [presyncRun_commitments]
    simp
  have hrb : redownloadBatch P
      ⟨P.chainStartHash, 0,
       (presyncRun P ⟨P.chainStartHash, P.chainStartWork, 0, []⟩
         chain).commitments, [],
       (presyncRun P ⟨P.chainStartHash, P.chainStartWork, 0, []⟩
         chain).tipHash⟩ chain
      = .ok (redownloadRun P
          ⟨P.chainStartHash, 0,
           (presyncRun P ⟨P.chainStartHash, P.chainStartWork, 0, []⟩
             chain).commitments, [],
           (presyncRun P ⟨P.chainStartHash, P.chainStartWork, 0, []⟩
             chain).tipHash⟩ chain) :=
    redownloadBatch_ok P chain _ [] hvalid hpend
  have htipeq :
      ((redownloadRun P
          ⟨P.chainStartHash, 0,
           (presyncRun P ⟨P.chainStartHash, P.chainStartWork, 0, []⟩
             chain).commitments, [],
           (presyncRun P ⟨P.chainStartHash, P.chainStartWork, 0, []⟩
             chain).tipHash⟩ chain).redownloadTip
        == (redownloadRun P
          ⟨P.chainStartHash, 0,
           (presyncRun P ⟨P.chainStartHash, P.chainStartWork, 0, []⟩
             chain).commitments, [],
           (presyncRun P ⟨P.chainStartHash, P.chainStartWork, 0, []⟩
             chain).tipHash⟩ chain).presyncTipHash) = true := by
    rw [redownloadRun_tip, redownloadRun_presyncTip, presyncRun_tipHash]
    exact beq_self_eq_true _
  have hbuf : (redownloadRun P
      ⟨P.chainStartHash, 0,
       (presyncRun P ⟨P.chainStartHash, P.chainStartWork, 0, []⟩
         chain).commitments, [],
       (presyncRun P ⟨P.chainStartHash, P.chainStartWork, 0, []⟩
         chain).tipHash⟩ chain).buffer = chain := by
    rw [redownloadRun_buffer]
    simp
  have hfst : (ProcessNextHeaders P (initialSyncState P) chain true).1
      = SyncState.redownload
          ⟨P.chainStartHash, 0,
           (presyncRun P ⟨P.chainStartHash, P.chainStartWork, 0, []⟩
             chain).commitments, [],
           (presyncRun P ⟨P.chainStartHash, P.chainStartWork, 0, []⟩
             chain).tipHash⟩ := by
    rw [h1]
  have h2 : ProcessNextHeaders P
      (SyncState.redownload
        ⟨P.chainStartHash, 0,
         (presyncRun P ⟨P.chainStartHash, P.chainStartWork, 0, []⟩
           chain).commitments, [],
         (presyncRun P ⟨P.chainStartHash, P.chainStartWork, 0, []⟩
           chain).tipHash⟩) chain true
      = (SyncState.final, ⟨true, false, chain⟩) := by
    simp only [ProcessNextHeaders, hrb]
    rw [if_pos htipeq, hbuf]
  obtain ⟨h0, rest, hchain⟩ : ∃ h0 rest, chain = h0 :: rest := by
    cases chain with
    | nil => simp at hlen
    | cons a b => exact ⟨a, b, rfl⟩
  have hprev0 : h0.prevHash = P.chainStartHash := by
    rw [hchain] at hvalid
    simp only [validChainFrom, Bool.and_eq_true, beq_iff_eq] at hvalid
    exact hvalid.1.2
  refine ⟨⟨?_, ?_⟩, ?_, ?_, ?_, ?_, ?_⟩
  · rw [h1]
  · rw [hfst]
    rfl
  · rw [hfst, h2]
  · rw [hfst, h2]
  · rw [hfst, h2]
  · rw [hfst, h2]
    exact hlen
  · refine ⟨h0, rest, ?_, hprev0⟩
    rw [hfst, h2]
    exact hchain

/-- Witness for claim C6: the concrete demo chain of fifteen thousand
headers satisfies all hypotheses, and the second call releases exactly
fifteen thousand headers. -/
theorem headers_sync_happy_path_witness :
    (demoChain 0 15000).length = 15000 ∧
    (ProcessNextHeaders demoParams
        (ProcessNextHeaders demoParams (initialSyncState demoParams)
            (demoChain 0 15000) true).1
        (demoChain 0 15000) true).2.pow_validated_headers.length
      = 15000 :=
  ⟨demoChain_length 0 15000,
   (headers_sync_happy_path demoParams (demoChain 0 15000)
      (demoChain_length 0 15000) (demoChain_valid 0 15000)
      (by rw [demoChain_work]; decide)).2.2.2.2.1⟩
